import Mathlib

/-!
Shallow embedding of the 3D_Video_Edu_Platform repository core:
the scene/workflow builder and template table
(nano_banana_integration.py), the fallback generation pipeline
(enhanced_app.py), and the process supervisor (start_nano_banana.py).
Each definition carries a comment naming the Python function it embeds.
-/

namespace VideoEdu

/-! ### Data model

Plans arrive as the analysis dictionary returned by
`analyze_educational_topic`: a topic, a subject, a level, and a list of
concepts, each with a name, a description, an image prompt and a list of
educational labels (dictionary key `annotations`).
-/

structure Concept where
  name : String
  description : String
  image_prompt : String
  annotations : List String
  deriving Repr, DecidableEq

structure Analysis where
  topic : String
  subject : String
  level : String
  concepts : List Concept
  deriving Repr, DecidableEq

/-- A node position, the `position` dictionary `{x, y}`. -/
structure NodePos where
  x : Nat
  y : Nat
  deriving Repr, DecidableEq

/-- The optional `data` payload placed on builder-generated nodes. -/
structure NodeData where
  prompt : String
  concept : Option String
  deriving Repr, DecidableEq

/-- A workflow node as built by `create_nano_banana_workflow` and as it
appears in the static templates of `load_workflow_templates`
(template nodes carry no `data` payload). -/
structure WorkflowNode where
  type : String
  id : String
  prompt : String
  position : NodePos
  data : Option NodeData
  deriving Repr, DecidableEq

/-- A workflow edge `{source, target}`. -/
structure WorkflowEdge where
  source : String
  target : String
  deriving Repr, DecidableEq

/-- The Python `str.lower()` call applied to a subject, embedded as a
structurally recursive map over the character list (the library
`String.toLower` is an equal function but is defined by well-founded
recursion and does not evaluate in the kernel). -/
def str_lower (s : String) : String := (s.data.map Char.toLower).asString

/-- The workflow dictionary: the SceneDescription of the spec. -/
structure Workflow where
  name : String
  nodes : List WorkflowNode
  edges : List WorkflowEdge
  deriving Repr, DecidableEq

/-! ### Template table (`NanoBananaVideoEduPlatform.load_workflow_templates`) -/

/-- The `"physics"` entry of `load_workflow_templates`. -/
def physics_template : Workflow :=
  { name := "Physics Visualization Workflow"
    nodes :=
      [ { type := "generateImage", id := "concept_visualization"
          prompt := "Create a 3D scientific illustration showing {concept} with clear labels and educational annotations"
          position := { x := 100, y := 100 }, data := none }
      , { type := "editImage", id := "add_annotations"
          prompt := "Add educational labels, arrows, and explanations to make this diagram more educational"
          position := { x := 400, y := 100 }, data := none }
      , { type := "generateImage", id := "animation_frame_1"
          prompt := "Create the first frame of an animation showing {concept} in action"
          position := { x := 100, y := 300 }, data := none }
      , { type := "generateImage", id := "animation_frame_2"
          prompt := "Create the second frame of an animation showing {concept} in action"
          position := { x := 300, y := 300 }, data := none }
      , { type := "generateImage", id := "animation_frame_3"
          prompt := "Create the third frame of an animation showing {concept} in action"
          position := { x := 500, y := 300 }, data := none } ]
    edges :=
      [ { source := "concept_visualization", target := "add_annotations" }
      , { source := "animation_frame_1", target := "animation_frame_2" }
      , { source := "animation_frame_2", target := "animation_frame_3" } ] }

/-- The `"chemistry"` entry of `load_workflow_templates`. -/
def chemistry_template : Workflow :=
  { name := "Chemistry Molecular Visualization"
    nodes :=
      [ { type := "generateImage", id := "molecular_structure"
          prompt := "Create a 3D molecular structure diagram of {molecule} with accurate bond angles and atom colors"
          position := { x := 100, y := 100 }, data := none }
      , { type := "editImage", id := "add_bond_labels"
          prompt := "Add bond type labels, electron pairs, and molecular geometry annotations"
          position := { x := 400, y := 100 }, data := none }
      , { type := "generateImage", id := "reaction_mechanism"
          prompt := "Create a step-by-step reaction mechanism diagram showing {reaction}"
          position := { x := 100, y := 300 }, data := none } ]
    edges := [ { source := "molecular_structure", target := "add_bond_labels" } ] }

/-- The `"biology"` entry of `load_workflow_templates`. -/
def biology_template : Workflow :=
  { name := "Biology Process Visualization"
    nodes :=
      [ { type := "generateImage", id := "cell_structure"
          prompt := "Create a detailed cross-section of a {cell_type} showing all organelles and their functions"
          position := { x := 100, y := 100 }, data := none }
      , { type := "editImage", id := "highlight_process"
          prompt := "Highlight the {process} pathway with arrows and color coding"
          position := { x := 400, y := 100 }, data := none }
      , { type := "generateImage", id := "process_animation_1"
          prompt := "Create the first stage of {process} with clear visual indicators"
          position := { x := 100, y := 300 }, data := none }
      , { type := "generateImage", id := "process_animation_2"
          prompt := "Create the second stage of {process} with clear visual indicators"
          position := { x := 300, y := 300 }, data := none } ]
    edges :=
      [ { source := "cell_structure", target := "highlight_process" }
      , { source := "process_animation_1", target := "process_animation_2" } ] }

/-- The function `load_workflow_templates`: the dictionary of registered template
sets, embedded as an association list with the three keys of the source,
in source order. -/
def load_workflow_templates : List (String × Workflow) :=
  [ ("physics", physics_template)
  , ("chemistry", chemistry_template)
  , ("biology", biology_template) ]

/-- The object state set up by `__init__` / `setup_nano_banana`:
the fields of `NanoBananaVideoEduPlatform` that the builder can read. -/
structure Platform where
  nano_banana_url : String
  workflow_templates : List (String × Workflow)
  deriving Repr, DecidableEq

/-- The object state built by `setup_nano_banana`. -/
def setup_nano_banana : Platform :=
  { nano_banana_url := "http://localhost:3000"
    workflow_templates := load_workflow_templates }

/-! ### Builder (`NanoBananaVideoEduPlatform.create_nano_banana_workflow`) -/

/-- The template lookup
`self.workflow_templates.get(subject.lower(), self.workflow_templates["physics"])`.
A missing `"physics"` key would raise `KeyError`; that is the `none`
result here. -/
def resolve_template (tbl : List (String × Workflow)) (subject : String) :
    Option Workflow :=
  match tbl.lookup (str_lower subject) with
  | some t => some t
  | none => tbl.lookup "physics"

/-- The first node appended per concept (the `concept_{i}` node). -/
def concept_node (i : Nat) (c : Concept) : WorkflowNode :=
  { type := "generateImage"
    id := "concept_" ++ Nat.repr i
    prompt := c.image_prompt
    position := { x := 100 + i * 300, y := 100 }
    data := some { prompt := c.image_prompt, concept := some c.name } }

/-- The second node appended per concept (the `annotate_{i}` node). -/
def annotate_node (i : Nat) (c : Concept) : WorkflowNode :=
  { type := "editImage"
    id := "annotate_" ++ Nat.repr i
    prompt := "Add educational annotations: " ++ String.intercalate ", " c.annotations
    position := { x := 100 + i * 300, y := 300 }
    data := some
      { prompt := "Add educational annotations: " ++ String.intercalate ", " c.annotations
        concept := none } }

/-- The edge appended per concept, `concept_{i} -> annotate_{i}`. -/
def concept_edge (i : Nat) : WorkflowEdge :=
  { source := "concept_" ++ Nat.repr i, target := "annotate_" ++ Nat.repr i }

/-- The node list built by the `for i, concept in enumerate(...)` loop,
starting at index `i`. -/
def workflow_nodes : Nat → List Concept → List WorkflowNode
  | _, [] => []
  | i, c :: rest => concept_node i c :: annotate_node i c :: workflow_nodes (i + 1) rest

/-- The edge list built by the same loop, starting at index `i`. -/
def workflow_edges : Nat → List Concept → List WorkflowEdge
  | _, [] => []
  | i, _ :: rest => concept_edge i :: workflow_edges (i + 1) rest

/-- The builder `create_nano_banana_workflow`. The looked-up template is bound but
never used by the source (the local variable `template` is dead); only
the `KeyError` case of the lookup can abort the call, which is the
`none` result here. -/
def create_nano_banana_workflow (self : Platform) (analysis : Analysis) :
    Option Workflow :=
  match resolve_template self.workflow_templates analysis.subject with
  | none => none
  | some _template =>
      some
        { name := "Educational Workflow: " ++ analysis.topic
          nodes := workflow_nodes 0 analysis.concepts
          edges := workflow_edges 0 analysis.concepts }

/-! ### The rest of the nano-banana pipeline
(`analyze_educational_topic`, `execute_nano_banana_workflow`,
`create_video_from_images`, `generate_educational_video`) -/

/-- The mock analysis returned by `analyze_educational_topic`: the plan
that feeds the builder. -/
def analyze_educational_topic (topic subject level : String) : Analysis :=
  { topic := topic
    subject := subject
    level := level
    concepts :=
      [ { name := "Main Concept"
          description := "Visual representation of " ++ topic
          image_prompt :=
            "Create a 3D educational illustration of " ++ topic ++
              " suitable for " ++ level ++ " students"
          annotations := ["Key terms", "Important relationships", "Process steps"] } ] }

/-- The mock image generation of `execute_nano_banana_workflow`: one
mock image reference per `generateImage` or `editImage` node, in node
order; nodes of any other type contribute nothing. -/
def execute_nano_banana_workflow (w : Workflow) : List String :=
  w.nodes.flatMap fun node =>
    if node.type = "generateImage" then ["mock_image_" ++ node.id ++ ".jpg"]
    else if node.type = "editImage" then ["mock_edited_" ++ node.id ++ ".jpg"]
    else []

/-- A file system snapshot: the directories created so far and the files
written so far (most recent first). -/
structure FS where
  dirs : List String
  files : List (String × String)
  deriving Repr, DecidableEq

/-- The Python `topic.replace(' ', '_')` call: the pattern and the
replacement are single characters, so the call is a character map. -/
def replace_spaces (s : String) : String :=
  (s.data.map fun c => if c = ' ' then '_' else c).asString

/-- The Python `os.path.dirname` call: everything before the final
slash of the path (empty when the path has no slash). -/
def os_path_dirname (p : String) : String :=
  (((p.data.reverse.dropWhile fun c => c != '/').drop 1).reverse).asString

/-- The video-assembly step `create_video_from_images`: builds the
output path from the topic, creates the directory of that path
(`os.makedirs`), writes the literal text `Mock video content` to the
path, and returns the path. The `images` argument is never read. -/
def create_video_from_images (fs : FS) (_images : List String) (topic : String) :
    FS × String :=
  let video_path := "output/" ++ replace_spaces topic ++ "_nano_banana_video.mp4"
  let fs := { fs with dirs := os_path_dirname video_path :: fs.dirs }
  let fs := { fs with files := (video_path, "Mock video content") :: fs.files }
  (fs, video_path)

/-- The image-workflow backend entry point `generate_educational_video`:
analysis, then the builder, then mock image generation, then video
assembly. The builder is the only step that can fail. -/
def generate_educational_video (fs : FS) (topic subject level : String) :
    Option (FS × String) :=
  match
    create_nano_banana_workflow setup_nano_banana
      (analyze_educational_topic topic subject level) with
  | none => none
  | some workflow =>
      some (create_video_from_images fs (execute_nano_banana_workflow workflow) topic)

/-! ### Fallback pipeline (`EnhancedVideoEduPlatform` in enhanced_app.py) -/

/-- The two renderer backends of the fallback chain, in registry order:
the procedural Blender backend first, the nano-banana image workflow
second. -/
inductive Backend where
  | blender3d
  | nanoBanana
  deriving Repr, DecidableEq

/-- The external environment of one `generate_video` request:
whether the `blender --version` probe succeeds, and whether the spawned
Blender render process exits with code 0. -/
structure BlenderEnv where
  blender_available : Bool
  render_ok : Bool
  deriving Repr, DecidableEq

/-- The output directory `f"output/{topic.replace(' ', '_')}"` used by
`execute_blender_script`. -/
def output_dir (topic : String) : String := "output/" ++ replace_spaces topic

/-- The Blender invocation `execute_blender_script`: creates the output
directory, runs Blender on the script (the temporary script file is
written and removed on every path, so it leaves no net file-system
trace), and returns the well-known artifact path on exit code 0 or
`none` (the Python `return None` after `st.error`) on failure. -/
def execute_blender_script (env : BlenderEnv) (fs : FS) (_script topic : String) :
    FS × Option String :=
  let dir := output_dir topic
  let fs := { fs with dirs := dir :: fs.dirs }
  if env.render_ok then (fs, some (dir ++ "/final_video.mp4")) else (fs, none)

/-- The dispatch `generate_video`: probes Blender availability; when
available, runs `execute_blender_script`; when unavailable, falls back
to `generate_educational_video(topic, "Physics", "High School")` on the
nano-banana platform. -/
def generate_video (env : BlenderEnv) (fs : FS) (topic script : String) :
    FS × Option String :=
  if env.blender_available then execute_blender_script env fs script topic
  else
    match generate_educational_video fs topic "Physics" "High School" with
    | some r => (r.1, some r.2)
    | none => (fs, none)

/-- The backends whose render step `generate_video` actually invokes,
read off the same control flow: the Blender branch invokes only the
Blender backend (whatever its outcome), the fallback branch invokes
only the nano-banana backend. -/
def generate_video_attempts (env : BlenderEnv) : List Backend :=
  if env.blender_available then [Backend.blender3d] else [Backend.nanoBanana]

/-! ### Process supervisor (`NanoBananaManager` in start_nano_banana.py) -/

/-- A handle to a spawned process, as seen through `Popen.poll()`:
`alive = true` means `poll()` returns `None`. -/
structure ProcHandle where
  alive : Bool
  deriving Repr, DecidableEq

/-- The mutable state of a `NanoBananaManager` instance: the two
optional process handles and the `running` flag. -/
structure MgrState where
  nano_banana_process : Option ProcHandle
  streamlit_process : Option ProcHandle
  running : Bool
  deriving Repr, DecidableEq

/-- The liveness check `if proc and proc.poll() is not None`: true
exactly when a handle exists and the process has exited. -/
def proc_exited : Option ProcHandle → Bool
  | none => false
  | some h => !h.alive

/-- The crash notices printed by `monitor_processes`. -/
inductive CrashEvent where
  | nanoBananaCrash
  | streamlitCrash
  deriving Repr, DecidableEq

/-- The monitor loop `monitor_processes`, with an explicit fuel counting
the one-second polling iterations. Each iteration checks the
nano-banana process first and the Streamlit process second; on the
first detected exit it prints one crash notice, clears `running`, and
breaks out of the loop. -/
def monitor_processes : Nat → MgrState → MgrState × List CrashEvent
  | 0, s => (s, [])
  | fuel + 1, s =>
    if s.running then
      if proc_exited s.nano_banana_process then
        ({ s with running := false }, [CrashEvent.nanoBananaCrash])
      else if proc_exited s.streamlit_process then
        ({ s with running := false }, [CrashEvent.streamlitCrash])
      else monitor_processes fuel s
    else (s, [])

/-- The `terminate()` call on an optional handle: a missing handle is
left alone, a present handle stops being alive. -/
def terminate_handle : Option ProcHandle → Option ProcHandle
  | none => none
  | some _ => some { alive := false }

/-- The shutdown `stop_processes`: terminates whichever handles exist
and clears `running`. -/
def stop_processes (s : MgrState) : MgrState :=
  { nano_banana_process := terminate_handle s.nano_banana_process
    streamlit_process := terminate_handle s.streamlit_process
    running := false }

/-- A supervised process slot counts as stopped when no live process
occupies it. -/
def proc_stopped : Option ProcHandle → Bool
  | none => true
  | some h => !h.alive

/-- Outcome of the tool probes
`subprocess.run(["npm", "--version"], check=True)` and the analogous
Streamlit probe. Three outcomes are distinguishable in the source:
both probes exit 0; a probed binary runs but exits non-zero, raising
`CalledProcessError`, which the `except subprocess.CalledProcessError`
clause catches; or a binary is absent, raising `FileNotFoundError`,
which no clause catches. -/
inductive ToolsProbe where
  | ok
  | probeFails
  | binaryMissing
  deriving Repr, DecidableEq

/-- The environment of one `NanoBananaManager.run()` invocation:
the tool-probe outcome, whether each service starts and survives its
three-second grace sleep, and whether the monitoring phase ends by a
keyboard interrupt (otherwise it ends because a process exited). -/
structure SupEnv where
  tools : ToolsProbe
  nano_path_exists : Bool
  nano_survives_start : Bool
  streamlit_survives_start : Bool
  interrupted : Bool
  deriving Repr, DecidableEq

/-- The startup step `start_nano_banana`: fails when the nano-banana
directory is missing or the process dies within the grace sleep;
on success it prints the reachable address. Returns the success flag
and the addresses printed. -/
def start_nano_banana (env : SupEnv) : Bool × List String :=
  if !env.nano_path_exists then (false, [])
  else if env.nano_survives_start then (true, ["http://localhost:3000"])
  else (false, [])

/-- The startup step `start_streamlit`, analogous. -/
def start_streamlit (env : SupEnv) : Bool × List String :=
  if env.streamlit_survives_start then (true, ["http://localhost:8501"])
  else (false, [])

/-- What one `NanoBananaManager.run()` invocation (and the `main`
wrapper around it) produces: the process exit status, the addresses
printed, and whether `stop_processes` ran before exit. -/
structure RunResult where
  exit_code : Nat
  printed_urls : List String
  stop_all_performed : Bool
  deriving Repr, DecidableEq

/-- The CLI entry point `NanoBananaManager.run` as called by `main`.
When a probed tool binary is absent, the `FileNotFoundError` escapes
the `except subprocess.CalledProcessError` clause, propagates through
`run` and `main`, and the interpreter exits with status 1. Every other
path returns from `run` normally or calls `sys.exit(0)`, so it exits
with status 0. `stop_processes` runs when Streamlit fails after
nano-banana started, and when the monitoring phase ends by interrupt;
when monitoring ends because a process exited, `run` returns without
calling `stop_processes`. -/
def manager_run (env : SupEnv) : RunResult :=
  match env.tools with
  | ToolsProbe.binaryMissing =>
    { exit_code := 1, printed_urls := [], stop_all_performed := false }
  | ToolsProbe.probeFails =>
    { exit_code := 0, printed_urls := [], stop_all_performed := false }
  | ToolsProbe.ok =>
    let nano := start_nano_banana env
    if !nano.1 then
      { exit_code := 0, printed_urls := nano.2, stop_all_performed := false }
    else
      let str := start_streamlit env
      if !str.1 then
        { exit_code := 0, printed_urls := nano.2 ++ str.2, stop_all_performed := true }
      else
        let banner := ["http://localhost:8501", "http://localhost:3000"]
        if env.interrupted then
          { exit_code := 0
            printed_urls := nano.2 ++ str.2 ++ banner
            stop_all_performed := true }
        else
          { exit_code := 0
            printed_urls := nano.2 ++ str.2 ++ banner
            stop_all_performed := false }

/-! ### Verification helpers and concrete inputs -/

/-- Decimal value of a digit character. -/
def char_val (c : Char) : Nat := c.toNat - 48

/-- Decimal value of a character list read most significant first,
starting from accumulator `a`. -/
def val_from (a : Nat) (cs : List Char) : Nat :=
  cs.foldl (fun acc c => acc * 10 + char_val c) a

/-- Referential integrity of a workflow: every edge endpoint names an
existing node. -/
def edges_closed (w : Workflow) : Prop :=
  ∀ e ∈ w.edges,
    (∃ nd ∈ w.nodes, nd.id = e.source) ∧ ∃ nd ∈ w.nodes, nd.id = e.target

/-- A sample concept, reused by several concrete plans below. -/
def gravity_concept : Concept :=
  { name := "Gravity"
    description := "Visual representation of Gravity"
    image_prompt := "Create a 3D educational illustration of Gravity"
    annotations := ["Key terms", "Process steps"] }

/-- A plan with a repeated concept name. -/
def repeated_plan : Analysis :=
  { topic := "Gravity", subject := "Physics", level := "High School"
    concepts := [gravity_concept, gravity_concept] }

/-- The workflow the builder produces for `repeated_plan`. -/
def repeated_scene : Workflow :=
  { name := "Educational Workflow: " ++ repeated_plan.topic
    nodes := workflow_nodes 0 repeated_plan.concepts
    edges := workflow_edges 0 repeated_plan.concepts }

/-- A biology concept for the referential-integrity example. -/
def cell_concept : Concept :=
  { name := "Cell Division"
    description := "Visual representation of Cell Division"
    image_prompt := "Create a 3D educational illustration of Cell Division"
    annotations := ["Key terms"] }

/-- A biology plan. -/
def cell_plan : Analysis :=
  { topic := "Cell Division", subject := "Biology", level := "College"
    concepts := [cell_concept] }

/-- The workflow the builder produces for `cell_plan`. -/
def cell_scene : Workflow :=
  { name := "Educational Workflow: " ++ cell_plan.topic
    nodes := workflow_nodes 0 cell_plan.concepts
    edges := workflow_edges 0 cell_plan.concepts }

/-- A plan whose subject no registered template set recognizes. -/
def astrology_plan : Analysis :=
  { topic := "Star Signs", subject := "Astrology", level := "College"
    concepts := [gravity_concept] }

/-- A plan whose subject the UI offers but no template set registers. -/
def math_plan : Analysis :=
  { topic := "Geometry", subject := "Mathematics", level := "Elementary"
    concepts := [gravity_concept] }

/-- A platform state equal to `setup_nano_banana` except for the
session-scoped URL field. -/
def remote_platform : Platform :=
  { nano_banana_url := "http://localhost:9999"
    workflow_templates := load_workflow_templates }

/-- A manager state in which both supervised processes have exited
while the monitor considers itself running. -/
def both_dead : MgrState :=
  { nano_banana_process := some { alive := false }
    streamlit_process := some { alive := false }
    running := true }

/-- A manager state in which the nano-banana process has exited and the
Streamlit process is still alive. -/
def nano_dead : MgrState :=
  { nano_banana_process := some { alive := false }
    streamlit_process := some { alive := true }
    running := true }

/-- An environment in which the nano-banana process dies within its
startup grace period. -/
def failed_start_env : SupEnv :=
  { tools := ToolsProbe.ok, nano_path_exists := true, nano_survives_start := false
    streamlit_survives_start := true, interrupted := true }

/-- An environment in which both services start and the operator
interrupts the monitor. -/
def full_env : SupEnv :=
  { tools := ToolsProbe.ok, nano_path_exists := true, nano_survives_start := true
    streamlit_survives_start := true, interrupted := true }

/-! ## Infrastructure lemmas -/

theorem char_val_digitChar {m : Nat} (h : m < 10) :
    char_val (Nat.digitChar m) = m := by
  interval_cases m <;> rfl

theorem val_from_toDigitsCore :
    ∀ (f n : Nat) (l : List Char), n < f →
      val_from 0 (Nat.toDigitsCore 10 f n l) = val_from n l := by
  intro f
  induction f with
  | zero => intro n l h; exact absurd h (Nat.not_lt_zero n)
  | succ f ih =>
    intro n l h
    have hstep : Nat.toDigitsCore 10 (f + 1) n l =
        if n / 10 = 0 then Nat.digitChar (n % 10) :: l
        else Nat.toDigitsCore 10 f (n / 10) (Nat.digitChar (n % 10) :: l) := by
      simp [Nat.toDigitsCore]
    by_cases h0 : n / 10 = 0
    · rw [hstep, if_pos h0]
      have h1 : val_from 0 (Nat.digitChar (n % 10) :: l) =
          val_from (0 * 10 + char_val (Nat.digitChar (n % 10))) l := rfl
      rw [h1, char_val_digitChar (Nat.mod_lt n (by omega))]
      have h2 : 0 * 10 + n % 10 = n := by omega
      rw [h2]
    · rw [hstep, if_neg h0]
      have hlt : n / 10 < f := by omega
      rw [ih (n / 10) (Nat.digitChar (n % 10) :: l) hlt]
      have h1 : val_from (n / 10) (Nat.digitChar (n % 10) :: l) =
          val_from (n / 10 * 10 + char_val (Nat.digitChar (n % 10))) l := rfl
      rw [h1, char_val_digitChar (Nat.mod_lt n (by omega))]
      have h2 : n / 10 * 10 + n % 10 = n := by omega
      rw [h2]

theorem val_from_repr (n : Nat) : val_from 0 (Nat.repr n).data = n := by
  show val_from 0 (Nat.toDigitsCore 10 (n + 1) n []) = n
  rw [val_from_toDigitsCore (n + 1) n [] (Nat.lt_succ_self n)]
  rfl

theorem repr_injective : Function.Injective Nat.repr := by
  intro a b h
  have ha := val_from_repr a
  rw [h, val_from_repr b] at ha
  exact ha.symm

theorem string_append_cancel {p x y : String} (h : p ++ x = p ++ y) : x = y := by
  have hd : (p ++ x).data = (p ++ y).data := congrArg String.data h
  rw [String.data_append, String.data_append] at hd
  exact String.ext (List.append_cancel_left hd)

theorem concept_id_inj {i j : Nat}
    (h : "concept_" ++ Nat.repr i = "concept_" ++ Nat.repr j) : i = j :=
  repr_injective (string_append_cancel h)

theorem annotate_id_inj {i j : Nat}
    (h : "annotate_" ++ Nat.repr i = "annotate_" ++ Nat.repr j) : i = j :=
  repr_injective (string_append_cancel h)

theorem concept_ne_annotate (i j : Nat) :
    "concept_" ++ Nat.repr i ≠ "annotate_" ++ Nat.repr j := by
  intro h
  have h1 : ("concept_" ++ Nat.repr i).data.head? = some 'c' := by
    rw [String.data_append]; rfl
  have h2 : ("annotate_" ++ Nat.repr j).data.head? = some 'a' := by
    rw [String.data_append]; rfl
  rw [h, h2] at h1
  exact absurd h1 (by decide)

theorem mem_workflow_node_ids :
    ∀ (cs : List Concept) (i : Nat) (x : String),
      x ∈ (workflow_nodes i cs).map (fun nd => nd.id) →
      ∃ k, i ≤ k ∧
        (x = "concept_" ++ Nat.repr k ∨ x = "annotate_" ++ Nat.repr k) := by
  intro cs
  induction cs with
  | nil => intro i x hx; simp [workflow_nodes] at hx
  | cons c rest ih =>
    intro i x hx
    simp only [workflow_nodes, List.map_cons, List.mem_cons] at hx
    rcases hx with h1 | h2 | h3
    · exact ⟨i, Nat.le_refl i, Or.inl h1⟩
    · exact ⟨i, Nat.le_refl i, Or.inr h2⟩
    · obtain ⟨k, hk, hor⟩ := ih (i + 1) x h3
      exact ⟨k, by omega, hor⟩

theorem workflow_node_ids_nodup :
    ∀ (cs : List Concept) (i : Nat),
      ((workflow_nodes i cs).map (fun nd => nd.id)).Nodup := by
  intro cs
  induction cs with
  | nil => intro i; simp [workflow_nodes]
  | cons c rest ih =>
    intro i
    simp only [workflow_nodes, List.map_cons]
    refine List.nodup_cons.mpr ⟨?_, List.nodup_cons.mpr ⟨?_, ih (i + 1)⟩⟩
    · intro hmem
      rcases List.mem_cons.mp hmem with h1 | h2
      · exact concept_ne_annotate i i h1
      · obtain ⟨k, hk, hor⟩ := mem_workflow_node_ids rest (i + 1) _ h2
        rcases hor with h | h
        · have := concept_id_inj h; omega
        · exact concept_ne_annotate i k h
    · intro hmem
      obtain ⟨k, hk, hor⟩ := mem_workflow_node_ids rest (i + 1) _ hmem
      rcases hor with h | h
      · exact concept_ne_annotate k i h.symm
      · have := annotate_id_inj h; omega

theorem workflow_edges_have_nodes :
    ∀ (cs : List Concept) (i : Nat) (e : WorkflowEdge),
      e ∈ workflow_edges i cs →
      (∃ nd ∈ workflow_nodes i cs, nd.id = e.source) ∧
        ∃ nd ∈ workflow_nodes i cs, nd.id = e.target := by
  intro cs
  induction cs with
  | nil => intro i e he; simp [workflow_edges] at he
  | cons c rest ih =>
    intro i e he
    rcases List.mem_cons.mp he with h1 | h2
    · subst h1
      refine ⟨⟨concept_node i c, List.mem_cons_self _ _, rfl⟩,
        ⟨annotate_node i c, List.mem_cons.mpr (Or.inr (List.mem_cons_self _ _)), rfl⟩⟩
    · obtain ⟨⟨n1, hn1, hid1⟩, ⟨n2, hn2, hid2⟩⟩ := ih (i + 1) e h2
      exact ⟨⟨n1, List.mem_cons.mpr (Or.inr (List.mem_cons.mpr (Or.inr hn1))), hid1⟩,
        ⟨n2, List.mem_cons.mpr (Or.inr (List.mem_cons.mpr (Or.inr hn2))), hid2⟩⟩

theorem resolve_template_load (subject : String) :
    resolve_template load_workflow_templates subject =
      some ((load_workflow_templates.lookup (str_lower subject)).getD
        physics_template) := by
  unfold resolve_template
  cases load_workflow_templates.lookup (str_lower subject) <;> rfl

theorem create_workflow_setup (a : Analysis) :
    create_nano_banana_workflow setup_nano_banana a =
      some
        { name := "Educational Workflow: " ++ a.topic
          nodes := workflow_nodes 0 a.concepts
          edges := workflow_edges 0 a.concepts } := by
  unfold create_nano_banana_workflow
  rw [show setup_nano_banana.workflow_templates = load_workflow_templates from rfl,
    resolve_template_load a.subject]

theorem generate_educational_video_eq (fs : FS) (topic subject level : String) :
    generate_educational_video fs topic subject level =
      some (create_video_from_images fs [] topic) := by
  unfold generate_educational_video
  rw [create_workflow_setup]
  rfl

/-- With a tool binary absent, the uncaught `FileNotFoundError` exits
the interpreter with a non-zero status, before any process is started
or any address printed. -/
theorem manager_run_missing_binary (env : SupEnv)
    (h : env.tools = ToolsProbe.binaryMissing) :
    (manager_run env).exit_code = 1
    ∧ (manager_run env).printed_urls = []
    ∧ (manager_run env).stop_all_performed = false := by
  unfold manager_run
  rw [h]
  exact ⟨rfl, rfl, rfl⟩

/-! ## Claims

Ids `C1` to `C10` refer to the numbered claims about this program; each
theorem states the settled form of its claim.
-/

/-- C1, counterexample. The claim says a plan whose subject no
registered template set recognizes makes the builder fail instead of
silently substituting a default template. On the code, the subject
`Astrology` is recognized by no registered template set, yet the lookup
silently substitutes the physics template as default and the builder
still produces a workflow. -/
theorem c1_unknown_subject_counterexample :
    load_workflow_templates.lookup (str_lower "Astrology") = none
    ∧ resolve_template load_workflow_templates "Astrology" = some physics_template
    ∧ (create_nano_banana_workflow setup_nano_banana astrology_plan).isSome = true :=
  ⟨rfl, rfl, rfl⟩

/-- C1, amended: for every plan whose subject is not recognized by any
registered template set, the builder silently substitutes the physics
template as the default and still produces a workflow; it never fails
with a template-resolution error. -/
theorem c1_unknown_subject_defaults_to_physics (self : Platform) (a : Analysis)
    (htbl : self.workflow_templates = load_workflow_templates)
    (hsub : load_workflow_templates.lookup (str_lower a.subject) = none) :
    resolve_template self.workflow_templates a.subject = some physics_template
    ∧ (create_nano_banana_workflow self a).isSome = true := by
  have hres : resolve_template self.workflow_templates a.subject =
      some physics_template := by
    rw [htbl]
    unfold resolve_template
    rw [hsub]
    rfl
  refine ⟨hres, ?_⟩
  unfold create_nano_banana_workflow
  rw [hres]
  rfl

/-- C1, witness for the amended claim at the subject `Mathematics`. -/
theorem c1_unknown_subject_witness :
    load_workflow_templates.lookup (str_lower math_plan.subject) = none
    ∧ resolve_template setup_nano_banana.workflow_templates math_plan.subject =
        some physics_template
    ∧ (create_nano_banana_workflow setup_nano_banana math_plan).isSome = true := by
  have h := c1_unknown_subject_defaults_to_physics setup_nano_banana math_plan rfl rfl
  exact ⟨rfl, h.1, h.2⟩

/-- C2, counterexample. The claim says a render failure of a backend
candidate is recorded and the next candidate in registry order is then
attempted, with an exhaustive attempt list on full failure. On the code,
when Blender is available but its render process fails, `generate_video`
returns a bare `None`: the nano-banana candidate is never attempted and
no attempt list of any kind is produced. -/
theorem c2_no_fallback_counterexample :
    (generate_video { blender_available := true, render_ok := false }
        { dirs := [], files := [] } "Gravity" "script").2 = none
    ∧ generate_video_attempts { blender_available := true, render_ok := false } =
        [Backend.blender3d] :=
  ⟨rfl, rfl⟩

/-- C2, amended: when the Blender availability probe fails, the
orchestrator falls back to the nano-banana candidate, which succeeds
with the mock video path; but when Blender is available and its render
process fails, `generate_video` returns `None` immediately — the second
candidate is never attempted and the result carries no attempt
information. -/
theorem c2_fallback_only_on_unavailability (env : BlenderEnv) (fs : FS)
    (topic script : String) :
    (env.blender_available = false →
      (generate_video env fs topic script).2 =
          some ("output/" ++ replace_spaces topic ++ "_nano_banana_video.mp4")
      ∧ generate_video_attempts env = [Backend.nanoBanana])
    ∧ (env.blender_available = true → env.render_ok = false →
      (generate_video env fs topic script).2 = none
      ∧ generate_video_attempts env = [Backend.blender3d]) := by
  constructor
  · intro hb
    unfold generate_video generate_video_attempts
    rw [hb, generate_educational_video_eq fs topic "Physics" "High School"]
    exact ⟨rfl, rfl⟩
  · intro hb hr
    unfold generate_video generate_video_attempts execute_blender_script
    rw [hb, hr]
    exact ⟨rfl, rfl⟩

/-- C2, witness for the amended claim: the unavailable case falls back
to nano-banana; the render-failure case returns `None` with only the
Blender attempt. -/
theorem c2_fallback_witness :
    ((generate_video { blender_available := false, render_ok := false }
        { dirs := [], files := [] } "Gravity" "s").2 =
      some ("output/" ++ replace_spaces "Gravity" ++ "_nano_banana_video.mp4")
    ∧ generate_video_attempts { blender_available := false, render_ok := false } =
        [Backend.nanoBanana])
    ∧ ((generate_video { blender_available := true, render_ok := false }
        { dirs := [], files := [] } "Waves" "s").2 = none
    ∧ generate_video_attempts { blender_available := true, render_ok := false } =
        [Backend.blender3d]) :=
  ⟨(c2_fallback_only_on_unavailability { blender_available := false, render_ok := false }
      { dirs := [], files := [] } "Gravity" "s").1 rfl,
    (c2_fallback_only_on_unavailability { blender_available := true, render_ok := false }
      { dirs := [], files := [] } "Waves" "s").2 rfl rfl⟩

/-- C3: when the first backend candidate (Blender) succeeds,
`generate_video` returns its artifact and the later candidate
(nano-banana) is never invoked; first success wins. -/
theorem c3_first_success_wins (env : BlenderEnv) (fs : FS) (topic script : String)
    (ha : env.blender_available = true) (hr : env.render_ok = true) :
    (generate_video env fs topic script).2 =
        some (output_dir topic ++ "/final_video.mp4")
    ∧ generate_video_attempts env = [Backend.blender3d]
    ∧ Backend.nanoBanana ∉ generate_video_attempts env := by
  unfold generate_video generate_video_attempts execute_blender_script
  rw [ha, hr]
  exact ⟨rfl, rfl, by decide⟩

/-- C3, witness at a concrete successful Blender render. -/
theorem c3_first_success_witness :
    (generate_video { blender_available := true, render_ok := true }
        { dirs := [], files := [] } "Gravity" "s").2 =
        some (output_dir "Gravity" ++ "/final_video.mp4")
    ∧ generate_video_attempts { blender_available := true, render_ok := true } =
        [Backend.blender3d]
    ∧ Backend.nanoBanana ∉
        generate_video_attempts { blender_available := true, render_ok := true } :=
  c3_first_success_wins { blender_available := true, render_ok := true }
    { dirs := [], files := [] } "Gravity" "s" rfl rfl

/-- C4: the builder is deterministic — it is a pure function, and its
output depends only on the plan and the template table; any two
platform states with the same template table (for instance, differing
session URLs) yield identical workflows on every plan. -/
theorem c4_builder_deterministic (s1 s2 : Platform) (a : Analysis)
    (h : s1.workflow_templates = s2.workflow_templates) :
    create_nano_banana_workflow s1 a = create_nano_banana_workflow s2 a := by
  unfold create_nano_banana_workflow
  rw [h]

/-- C4, witness: the standard and a URL-modified platform agree on a
concrete plan. -/
theorem c4_builder_deterministic_witness :
    create_nano_banana_workflow setup_nano_banana repeated_plan =
      create_nano_banana_workflow remote_platform repeated_plan :=
  c4_builder_deterministic setup_nano_banana remote_platform repeated_plan rfl

/-- C5: the object identifiers the builder generates — `concept_{i}` and
`annotate_{i}` with `i` the enumeration index — are pairwise distinct,
even when the plan repeats concept names. -/
theorem c5_object_ids_distinct (self : Platform) (a : Analysis) (w : Workflow)
    (h : create_nano_banana_workflow self a = some w) :
    (w.nodes.map fun nd => nd.id).Nodup := by
  unfold create_nano_banana_workflow at h
  cases hres : resolve_template self.workflow_templates a.subject with
  | none => rw [hres] at h; exact absurd h (by simp)
  | some t =>
    rw [hres] at h
    have hw := Option.some.inj h
    rw [← hw]
    exact workflow_node_ids_nodup a.concepts 0

/-- C5, witness: a plan repeating the same concept twice still gets
pairwise distinct node ids. -/
theorem c5_object_ids_witness :
    create_nano_banana_workflow setup_nano_banana repeated_plan =
      some repeated_scene
    ∧ (repeated_scene.nodes.map fun nd => nd.id).Nodup :=
  ⟨rfl, c5_object_ids_distinct setup_nano_banana repeated_plan repeated_scene rfl⟩

/-- C6: referential integrity — every edge of a built workflow names
only node ids that exist among the nodes of that workflow. -/
theorem c6_referential_integrity (self : Platform) (a : Analysis) (w : Workflow)
    (h : create_nano_banana_workflow self a = some w) :
    edges_closed w := by
  unfold create_nano_banana_workflow at h
  cases hres : resolve_template self.workflow_templates a.subject with
  | none => rw [hres] at h; exact absurd h (by simp)
  | some t =>
    rw [hres] at h
    have hw := Option.some.inj h
    rw [← hw]
    intro e he
    exact workflow_edges_have_nodes a.concepts 0 e he

/-- C6, witness at a concrete biology plan. -/
theorem c6_referential_integrity_witness :
    create_nano_banana_workflow setup_nano_banana cell_plan = some cell_scene
    ∧ edges_closed cell_scene :=
  ⟨rfl, c6_referential_integrity setup_nano_banana cell_plan cell_scene rfl⟩

/-- C7, counterexample. The claim says the monitor keeps monitoring the
remaining processes after transitioning a crashed one. On the code, with
both processes exited, the loop emits only the nano-banana crash notice,
clears `running`, and returns: the Streamlit crash is never reported and
no process is monitored further (nor is any per-process state recorded —
only the `running` flag changes). -/
theorem c7_monitor_stops_counterexample :
    monitor_processes 5 both_dead =
      ({ both_dead with running := false }, [CrashEvent.nanoBananaCrash])
    ∧ CrashEvent.streamlitCrash ∉ (monitor_processes 5 both_dead).2
    ∧ (monitor_processes 5 both_dead).1.streamlit_process = some { alive := false } :=
  ⟨rfl, by decide, rfl⟩

/-- C7, amended: the monitor loop polls both processes while `running`
is set, checking the nano-banana process first; on the first detected
unexpected exit it emits exactly one crash notice, clears `running`, and
exits the loop — monitoring of the remaining process stops. -/
theorem c7_monitor_halts_on_first_crash (fuel : Nat) (s : MgrState)
    (hr : s.running = true) :
    (proc_exited s.nano_banana_process = true →
      monitor_processes (fuel + 1) s =
        ({ s with running := false }, [CrashEvent.nanoBananaCrash]))
    ∧ (proc_exited s.nano_banana_process = false →
        proc_exited s.streamlit_process = true →
      monitor_processes (fuel + 1) s =
        ({ s with running := false }, [CrashEvent.streamlitCrash])) := by
  constructor
  · intro hn
    simp [monitor_processes, hr, hn]
  · intro hn hs
    simp [monitor_processes, hr, hn, hs]

/-- C7, witness: one polling step on a state whose nano-banana process
has exited halts the loop with a single crash event. -/
theorem c7_monitor_witness :
    monitor_processes 1 nano_dead =
      ({ nano_dead with running := false }, [CrashEvent.nanoBananaCrash]) :=
  (c7_monitor_halts_on_first_crash 0 nano_dead rfl).1 rfl

/-- C8: `stop_processes` is idempotent; calling it when no process
exists does not error, leaves the process set unchanged, and every
supervised process slot ends up stopped. -/
theorem c8_stop_all_idempotent (s : MgrState) :
    stop_processes (stop_processes s) = stop_processes s
    ∧ proc_stopped (stop_processes s).nano_banana_process = true
    ∧ proc_stopped (stop_processes s).streamlit_process = true
    ∧ (s.nano_banana_process = none → s.streamlit_process = none →
        stop_processes s =
          { nano_banana_process := none, streamlit_process := none
            running := false }) := by
  obtain ⟨n, st, r⟩ := s
  cases n <;> cases st <;>
    simp [stop_processes, terminate_handle, proc_stopped]

/-- C8, witness: stopping with no process running is a no-op on the
process set and idempotent. -/
theorem c8_stop_all_witness :
    stop_processes (stop_processes
        { nano_banana_process := none, streamlit_process := none, running := false }) =
      stop_processes
        { nano_banana_process := none, streamlit_process := none, running := false }
    ∧ stop_processes
        { nano_banana_process := none, streamlit_process := none, running := false } =
      { nano_banana_process := none, streamlit_process := none, running := false } :=
  ⟨(c8_stop_all_idempotent
      { nano_banana_process := none, streamlit_process := none, running := false }).1,
    (c8_stop_all_idempotent
      { nano_banana_process := none, streamlit_process := none, running := false }).2.2.2
      rfl rfl⟩

/-- C9, counterexample. The claim says the entry point exits with a
non-zero status whenever a process fails to reach running within its
grace period. On the code, when the nano-banana process dies within the
grace sleep, `run` prints an error and returns normally, so the
interpreter exits with status 0. -/
theorem c9_exit_code_counterexample :
    (start_nano_banana failed_start_env).1 = false
    ∧ manager_run failed_start_env =
        { exit_code := 0, printed_urls := [], stop_all_performed := false } :=
  ⟨rfl, rfl⟩

/-- C9, amended: on the fully successful interrupted run the entry
point prints each reachable address, performs the shutdown, and exits
with status 0; and whenever the tool probes pass but a supervised
process fails to reach running within its startup grace period, the
entry point exits with status 0 rather than non-zero. When monitoring
ends because a process exited, the shutdown step is skipped. (A missing
tool binary is a separate path: the uncaught `FileNotFoundError` makes
the interpreter exit non-zero, see `manager_run`.) -/
theorem c9_startup_failure_exits_zero (env : SupEnv) :
    (env.tools = ToolsProbe.ok → env.nano_path_exists = true →
       env.nano_survives_start = true → env.streamlit_survives_start = true →
       env.interrupted = true →
        (manager_run env).exit_code = 0
        ∧ "http://localhost:3000" ∈ (manager_run env).printed_urls
        ∧ "http://localhost:8501" ∈ (manager_run env).printed_urls
        ∧ (manager_run env).stop_all_performed = true)
    ∧ (env.tools = ToolsProbe.ok →
        ((start_nano_banana env).1 = false ∨ (start_streamlit env).1 = false) →
        (manager_run env).exit_code = 0)
    ∧ (env.tools = ToolsProbe.ok → env.nano_path_exists = true →
       env.nano_survives_start = true → env.streamlit_survives_start = true →
       env.interrupted = false →
        (manager_run env).exit_code = 0
        ∧ (manager_run env).stop_all_performed = false) := by
  obtain ⟨t, np, ns, ss, i⟩ := env
  cases t <;> cases np <;> cases ns <;> cases ss <;> cases i <;>
    simp [manager_run, start_nano_banana, start_streamlit]

/-- C9, witness: the fully successful interrupted run prints both
addresses, performs the shutdown, and exits 0; the grace-period failure
run exits 0. -/
theorem c9_startup_failure_witness :
    ((manager_run full_env).exit_code = 0
      ∧ "http://localhost:3000" ∈ (manager_run full_env).printed_urls
      ∧ "http://localhost:8501" ∈ (manager_run full_env).printed_urls
      ∧ (manager_run full_env).stop_all_performed = true)
    ∧ (manager_run failed_start_env).exit_code = 0 :=
  ⟨(c9_startup_failure_exits_zero full_env).1 rfl rfl rfl rfl rfl,
    (c9_startup_failure_exits_zero failed_start_env).2.1 rfl (Or.inl rfl)⟩

/-- C10: for every topic and every image list (the images are never
read), the video-assembly step creates the directory of the output
path, writes a file whose entire content is the literal text
`Mock video content` at
`output/<topic with spaces replaced by underscores>_nano_banana_video.mp4`,
and returns that path; `generate_educational_video` returns exactly
this mock artifact on the success path of the image-workflow backend. -/
theorem c10_mock_video_artifact (fs : FS) (images : List String)
    (topic subject level : String) :
    (create_video_from_images fs images topic).2 =
        "output/" ++ replace_spaces topic ++ "_nano_banana_video.mp4"
    ∧ ((create_video_from_images fs images topic).2, "Mock video content")
        ∈ (create_video_from_images fs images topic).1.files
    ∧ os_path_dirname (create_video_from_images fs images topic).2
        ∈ (create_video_from_images fs images topic).1.dirs
    ∧ create_video_from_images fs images topic = create_video_from_images fs [] topic
    ∧ generate_educational_video fs topic subject level =
        some (create_video_from_images fs images topic) := by
  refine ⟨rfl, List.mem_cons_self _ _, List.mem_cons_self _ _, rfl, ?_⟩
  rw [generate_educational_video_eq]
  rfl

end VideoEdu
